import Mathlib

/-!
Shallow embedding of the valuation / calibration orchestration core of the
tsfin repository (equity options, currency spot, OIS rate helper), together
with theorems settling the frozen claims about it.

Conventions of the embedding:
- Dates are QuantLib serial dates, modelled as integers with the usual order.
- Market prices, quotes, strikes and volatilities are rationals.
- External collaborators (the time-series store, the calendar, the QuantLib
  implied-volatility solver and the pricing engine) are parameters of the
  model: total functions, with Option encoding a raised exception where the
  code catches one.
- Python exceptions that escape a function are modelled with Except; a
  function that cannot raise is total.
- The mutable instrument state (the stored exercise-type string and the
  implied-volatility cache dictionary) is threaded explicitly.
-/

namespace Tsfin

/-- QuantLib serial dates, ordered like the Python objects. -/
abbrev Date := Int

/-- QuantLib exercise objects, as built by option_exercise_type in
baseequityoption.py: AmericanExercise(date, maturity) or
EuropeanExercise(maturity). -/
inductive Exercise where
| american (earliestDate latestDate : Date)
| european (latestDate : Date)
deriving DecidableEq

/-- The Python str.upper method, written as a character map so that it
evaluates inside the kernel (the codes in this development are ASCII). -/
def pyUpper (s : String) : String := ⟨s.data.map Char.toUpper⟩

/-- Embedding of option_exercise_type (baseequityoption.py, lines 28 to 34):
compares exercise_type.upper() against AMERICAN and EUROPEAN and raises
ValueError (here Except.error) otherwise. -/
def option_exercise_type (exerciseType : String) (date maturity : Date) :
    Except Unit Exercise :=
  if pyUpper exerciseType = "AMERICAN" then .ok (.american date maturity)
  else if pyUpper exerciseType = "EUROPEAN" then .ok (.european maturity)
  else .error ()

/-- The immutable instrument record of BaseEquityOption: option type string,
strike and maturity, read from the time-series attributes at construction. -/
structure OptionInstr where
  optType : String
  strike : ℚ
  maturity : Date
deriving DecidableEq

/-- The QuantLib VanillaOption contract: a plain-vanilla payoff (option type
and strike, fixed at instrument construction) plus an exercise object. -/
structure VanillaOption where
  payoffType : String
  payoffStrike : ℚ
  exercise : Exercise
deriving DecidableEq

/-- The mutable instrument state of BaseEquityOption: the stored
exercise_type string (mutated by ql_option when an override is passed) and
the implied_volatility dictionary mapping dates to volatility quotes. -/
structure OptionState where
  exerciseType : String
  impliedVolatility : Date → Option ℚ

/-- Embedding of BaseEquityOption.ql_option (baseequityoption.py, lines 217
to 235): when exercise_ovrd is not None the stored exercise_type is set to
its uppercase before the exercise object is built, so the mutation persists
even when building raises. -/
def qlOption (inst : OptionInstr) (st : OptionState) (date : Date)
    (exerciseOvrd : Option String) : OptionState × Except Unit VanillaOption :=
  let st1 := match exerciseOvrd with
    | some o => { st with exerciseType := pyUpper o }
    | none => st
  match option_exercise_type st1.exerciseType date inst.maturity with
  | .ok ex => (st1, .ok ⟨inst.optType, inst.strike, ex⟩)
  | .error e => (st1, .error e)

/-- Embedding of BaseEquityOption.intrinsic (baseequityoption.py, lines 180
to 205). spotPrice is the underlying spot price series queried with
last_available True. Dates strictly past maturity give 0; otherwise the
payoff of the CALL or PUT against the spot at the date, floored at zero. -/
def intrinsic (inst : OptionInstr) (spotPrice : Date → ℚ) (date : Date) : ℚ :=
  if date > inst.maturity then 0
  else
    let spot := spotPrice date
    let i0 : ℚ := 0
    let i1 := if inst.optType = "CALL" then spot - inst.strike else i0
    let i2 := if inst.optType = "PUT" then inst.strike - spot else i1
    if i2 < 0 then 0 else i2

/-- The external collaborators used by option_engine: ts_mid_price with
last_available True, calendar.advance(date, -1, Days), and the QuantLib
impliedVolatility solver as a function of its target value where none
stands for a raised RuntimeError (non-convergence). -/
structure EngineEnv where
  tsMidPrice : Date → ℚ
  advanceMinusOneDay : Date → Date
  impliedVolSolve : ℚ → Option ℚ

/-- The date used as key of the volatility cache in option_engine
(baseequityoption.py, lines 271 to 272): the date is clamped to base_date
when it lies strictly beyond it. -/
def effDate (date base : Date) : Date :=
  if base < date then base else date

/-- Embedding of the volatility-resolution block of
BaseEquityOption.option_engine (baseequityoption.py, lines 271 to 292).
Returns the updated cache, the volatility quote used, and the number of
invocations of the implied-volatility solver; Except.error is the
RuntimeError that escapes when the retry at the prior business day also
fails. -/
def volResolve (env : EngineEnv) (cache : Date → Option ℚ) (date base : Date)
    (volatility : Option ℚ) :
    Except Unit ((Date → Option ℚ) × ℚ × ℕ) :=
  let d := effDate date base
  let cache1 : Date → Option ℚ := match volatility with
    | some v => fun x => if x = d then some v else cache x
    | none => cache
  match cache1 d with
  | some v => .ok (cache1, v, 0)
  | none =>
    match env.impliedVolSolve (env.tsMidPrice d) with
    | some iv => .ok (fun x => if x = d then some iv else cache1 x, iv, 1)
    | none =>
      match env.impliedVolSolve (env.tsMidPrice (env.advanceMinusOneDay d)) with
      | some iv => .ok (fun x => if x = d then some iv else cache1 x, iv, 2)
      | none => .error ()

/-- Embedding of BaseEquityOption.option_engine (baseequityoption.py, lines
237 to 293): build the contract through ql_option (mutating the stored
exercise type when an override is given), then resolve the volatility
through the cache. The update of the shared pricing process is external and
value-irrelevant here. The returned triple carries the contract, the
volatility used and the solver invocation count. -/
def optionEngine (env : EngineEnv) (inst : OptionInstr) (st : OptionState)
    (date base : Date) (exerciseOvrd : Option String)
    (volatility : Option ℚ) :
    OptionState × Except Unit (VanillaOption × ℚ × ℕ) :=
  match qlOption inst st date exerciseOvrd with
  | (st1, .error e) => (st1, .error e)
  | (st1, .ok opt) =>
    match volResolve env st1.impliedVolatility date base volatility with
    | .error e => (st1, .error e)
    | .ok (cache1, vol, n) =>
      ({ st1 with impliedVolatility := cache1 }, .ok (opt, vol, n))

/-- Embedding of BaseEquityOption.price (baseequityoption.py, lines 295 to
329). For dates at or past maturity the intrinsic value is returned at
maturity when maturity is at or past base_date, and at base_date otherwise;
for live dates the engine is set up and NPV queried, modelled as a function
npv of the volatility used. -/
def price (env : EngineEnv) (inst : OptionInstr) (st : OptionState)
    (spotPrice : Date → ℚ) (npv : ℚ → ℚ) (date base : Date)
    (exerciseOvrd : Option String) (volatility : Option ℚ) :
    OptionState × Except Unit ℚ :=
  if date ≥ inst.maturity then
    (st, .ok (if inst.maturity ≥ base then intrinsic inst spotPrice inst.maturity
              else intrinsic inst spotPrice base))
  else
    match optionEngine env inst st date base exerciseOvrd volatility with
    | (st1, .error e) => (st1, .error e)
    | (st1, .ok (_, vol, _)) => (st1, .ok (npv vol))

/-- Embedding of BaseEquityOption.delta (baseequityoption.py, lines 363 to
397). Past maturity: 1 when the intrinsic value at maturity is strictly
positive, otherwise 0. Live: the engine delta, an abstract parameter. -/
def delta (env : EngineEnv) (inst : OptionInstr) (st : OptionState)
    (spotPrice : Date → ℚ) (engineDelta : ℚ) (date base : Date)
    (exerciseOvrd : Option String) (volatility : Option ℚ) :
    OptionState × Except Unit ℚ :=
  if date ≥ inst.maturity then
    (st, .ok (if intrinsic inst spotPrice inst.maturity > 0 then 1 else 0))
  else
    match optionEngine env inst st date base exerciseOvrd volatility with
    | (st1, .error e) => (st1, .error e)
    | (st1, .ok _) => (st1, .ok engineDelta)

/-- Embedding of BaseEquityOption.gamma (baseequityoption.py, lines 429 to
460): 0 past maturity, the engine gamma on live dates. -/
def gamma (env : EngineEnv) (inst : OptionInstr) (st : OptionState)
    (engineGamma : ℚ) (date base : Date) (exerciseOvrd : Option String)
    (volatility : Option ℚ) : OptionState × Except Unit ℚ :=
  if date ≥ inst.maturity then (st, .ok 0)
  else
    match optionEngine env inst st date base exerciseOvrd volatility with
    | (st1, .error e) => (st1, .error e)
    | (st1, .ok _) => (st1, .ok engineGamma)

/-- Embedding of BaseEquityOption.theta (baseequityoption.py, lines 462 to
493): 0 past maturity, the engine theta on live dates. -/
def theta (env : EngineEnv) (inst : OptionInstr) (st : OptionState)
    (engineTheta : ℚ) (date base : Date) (exerciseOvrd : Option String)
    (volatility : Option ℚ) : OptionState × Except Unit ℚ :=
  if date ≥ inst.maturity then (st, .ok 0)
  else
    match optionEngine env inst st date base exerciseOvrd volatility with
    | (st1, .error e) => (st1, .error e)
    | (st1, .ok _) => (st1, .ok engineTheta)

/-- The result of vega or rho: the not-applicable sentinel (Python None) or
a numeric value. -/
inductive GreekResult where
| na
| val (q : ℚ)
deriving DecidableEq

/-- Embedding of BaseEquityOption.vega (baseequityoption.py, lines 495 to
532). Past maturity: the number 0. Live: after the engine is set up, the
not-applicable sentinel when the stored exercise_type equals the exact
string AMERICAN, otherwise the engine value; engineVega is none when the
QuantLib call raises, in which case 0 is returned and nothing propagates. -/
def vega (env : EngineEnv) (inst : OptionInstr) (st : OptionState)
    (engineVega : Option ℚ) (date base : Date) (exerciseOvrd : Option String)
    (volatility : Option ℚ) : OptionState × Except Unit GreekResult :=
  if date ≥ inst.maturity then (st, .ok (.val 0))
  else
    match optionEngine env inst st date base exerciseOvrd volatility with
    | (st1, .error e) => (st1, .error e)
    | (st1, .ok _) =>
      if st1.exerciseType = "AMERICAN" then (st1, .ok .na)
      else
        match engineVega with
        | some v => (st1, .ok (.val v))
        | none => (st1, .ok (.val 0))

/-- Embedding of BaseEquityOption.rho (baseequityoption.py, lines 534 to
571), structured exactly like vega. -/
def rho (env : EngineEnv) (inst : OptionInstr) (st : OptionState)
    (engineRho : Option ℚ) (date base : Date) (exerciseOvrd : Option String)
    (volatility : Option ℚ) : OptionState × Except Unit GreekResult :=
  if date ≥ inst.maturity then (st, .ok (.val 0))
  else
    match optionEngine env inst st date base exerciseOvrd volatility with
    | (st1, .error e) => (st1, .error e)
    | (st1, .ok _) =>
      if st1.exerciseType = "AMERICAN" then (st1, .ok .na)
      else
        match engineRho with
        | some v => (st1, .ok (.val v))
        | none => (st1, .ok (.val 0))

/-- The static record of a Currency instrument (currencyspot.py): the quote
currency code and the base currency code. -/
structure CurrencyInstr where
  currency : String
  baseCurrency : String
deriving DecidableEq

/-- Embedding of Currency.value (currencyspot.py, lines 45 to 58). quotes
is the quote series; the result is none for the NaN sentinel. A supplied
code is uppercased (to_upper_list); with none the stored quote currency is
used as is. -/
def Currency.value (inst : CurrencyInstr) (quotes : Date → ℚ) (date : Date)
    (currency : Option String) : Option ℚ :=
  let c := match currency with
    | none => inst.currency
    | some s => pyUpper s
  if c.length ≠ 3 then none
  else if inst.currency = inst.baseCurrency then some 1
  else if c = inst.currency then some (quotes date)
  else if c = inst.baseCurrency then some (1 / quotes date)
  else none

/-- The QuantLib OISRateHelper as constructed by OISRate.set_rate_helper
(ois.py, lines 41 to 51). The rate is passed as QuoteHandle(final_rate), a
live link to the instrument quote, so it is read off the state; the
overnight spread is passed as final_spread.value(), a number frozen at
construction time, so it is stored in the helper. -/
structure OISHelper where
  spreadAtConstruction : ℚ
deriving DecidableEq

/-- The mutable state of an OISRate instrument: the two SimpleQuote objects
final_rate and final_spread, and the lazily built rate helper. -/
structure OISState where
  finalRate : ℚ
  finalSpread : ℚ
  rateHelper : Option OISHelper
deriving DecidableEq

/-- The collaborators of OISRate.rate_helper inherited from DepositRate:
is_expired, get_values with NaN fill (none is NaN), and tenor which may
raise ValueError. -/
structure OISEnv where
  isExpired : Date → Bool
  getValues : Date → Option ℚ
  tenor : Date → Except Unit Unit

/-- Embedding of OISRate.set_rate_helper (ois.py, lines 41 to 51): builds
the helper, freezing the current value of the final_spread quote into it. -/
def set_rate_helper (st : OISState) : OISState :=
  { st with rateHelper := some ⟨st.finalSpread⟩ }

/-- Embedding of OISRate.rate_helper (ois.py, lines 53 to 85): None when
expired, when the quote is NaN, or when tenor raises ValueError; otherwise
the helper is built if absent, final_rate and final_spread are set, and the
helper is returned. The pair carries the new state and the result. -/
def rate_helper (env : OISEnv) (st : OISState) (date : Date) (spread : ℚ) :
    OISState × Option OISHelper :=
  if env.isExpired date then (st, none)
  else
    match env.getValues date with
    | none => (st, none)
    | some rate =>
      match env.tenor date with
      | .error _ => (st, none)
      | .ok _ =>
        let st1 := if st.rateHelper = none then set_rate_helper st else st
        let st2 := { st1 with finalRate := rate, finalSpread := spread }
        (st2, st2.rateHelper)

/-! Concrete instances used by counterexamples and witnesses. -/

/-- A CALL with strike 100 maturing at date 10. -/
def instC1 : OptionInstr := ⟨"CALL", 100, 10⟩

/-- A constant underlying spot series at 110. -/
def spotC1 : Date → ℚ := fun _ => 110

/-- A state with European exercise and an empty volatility cache. -/
def stC1 : OptionState := ⟨"EUROPEAN", fun _ => none⟩

/-- An engine environment whose solver always converges. -/
def envC1 : EngineEnv := ⟨fun _ => 10, fun d => d - 1, fun _ => some 2⟩

/-- C1, counterexample. With maturity 10, base_date 20 and evaluation date
20, price returns intrinsic at base_date, which is 0 because base_date is
past maturity; the claim demands intrinsic at min(maturity, base_date),
which is the payoff 10 at maturity. -/
theorem price_expired_min_counterexample :
    (price envC1 instC1 stC1 spotC1 (fun v => v) 20 20 none none).2 = .ok 0 ∧
    intrinsic instC1 spotC1 (min instC1.maturity 20) = 10 ∧ (0 : ℚ) ≠ 10 := by
  refine ⟨?_, ?_, ?_⟩
  · norm_num [price, intrinsic, instC1, spotC1]
  · have h : ¬ ("CALL" : String) = "PUT" := by decide
    norm_num [intrinsic, instC1, spotC1, min_def, h]
  · norm_num

/-- C1, amended. For every evaluation date at or past maturity, price
returns the intrinsic value evaluated at max(maturity, base_date):
intrinsic at maturity when maturity is at or past base_date, and intrinsic
at base_date (which is 0, base_date being past maturity) otherwise. -/
theorem price_expired_uses_later_date (env : EngineEnv) (inst : OptionInstr)
    (st : OptionState) (spotPrice : Date → ℚ) (npv : ℚ → ℚ) (date base : Date)
    (exerciseOvrd : Option String) (volatility : Option ℚ)
    (h : date ≥ inst.maturity) :
    price env inst st spotPrice npv date base exerciseOvrd volatility =
      (st, .ok (intrinsic inst spotPrice (max inst.maturity base))) := by
  unfold price
  rw [if_pos h]
  by_cases hb : inst.maturity ≥ base
  · rw [if_pos hb, max_eq_left hb]
  · rw [if_neg hb, max_eq_right (le_of_not_le hb)]

/-- C1, witness for the amended theorem at maturity 10, date 20, base 20. -/
theorem price_expired_uses_later_date_witness :
    (20 : Date) ≥ instC1.maturity ∧
    price envC1 instC1 stC1 spotC1 (fun v => v) 20 20 none none =
      (stC1, .ok (intrinsic instC1 spotC1 (max instC1.maturity 20))) :=
  ⟨by norm_num [instC1],
   price_expired_uses_later_date envC1 instC1 stC1 spotC1 (fun v => v) 20 20
     none none (by norm_num [instC1])⟩

/-- C2. The volatility-cache policy of option_engine: a supplied override
is stored at the clamped date and used, with zero solver invocations, in
precedence over any cached entry; without an override a cached entry is
reused with the cache unchanged and zero solver invocations; and without an
override no existing entry of the cache is ever overwritten. -/
theorem volatility_cache_policy (env : EngineEnv) (cache : Date → Option ℚ)
    (date base : Date) :
    (∀ v : ℚ, volResolve env cache date base (some v) =
        .ok (fun x => if x = effDate date base then some v else cache x, v, 0)) ∧
    (∀ w : ℚ, cache (effDate date base) = some w →
        volResolve env cache date base none = .ok (cache, w, 0)) ∧
    (∀ cache2 v n, volResolve env cache date base none = .ok (cache2, v, n) →
        ∀ x, cache x ≠ none → cache2 x = cache x) := by
  refine ⟨?_, ?_, ?_⟩
  · intro v
    simp [volResolve]
  · intro w hw
    simp [volResolve, hw]
  · intro cache2 v n h x hx
    rcases hc : cache (effDate date base) with _ | w
    · have hxd : x ≠ effDate date base := by
        intro he
        rw [he, hc] at hx
        exact hx rfl
      rcases hs1 : env.impliedVolSolve (env.tsMidPrice (effDate date base)) with _ | iv1
      · rcases hs2 : env.impliedVolSolve
            (env.tsMidPrice (env.advanceMinusOneDay (effDate date base))) with _ | iv2
        · simp [volResolve, hc, hs1, hs2] at h
        · simp [volResolve, hc, hs1, hs2] at h
          rw [← h.1]
          simp [hxd]
      · simp [volResolve, hc, hs1] at h
        rw [← h.1]
        simp [hxd]
    · simp [volResolve, hc] at h
      rw [← h.1]

/-- A cache that holds the entry 7 at date 3 only. -/
def cacheHit : Date → Option ℚ := fun x => if x = 3 then some 7 else none

/-- C2, witness: override stored and used at the clamped date 3 of a call
for date 5 with base_date 3; a cached entry at date 3 reused unchanged with
no solver call; preservation of the entry at date 3 on a solving call. -/
theorem volatility_cache_policy_witness :
    (volResolve envC1 cacheHit 5 3 (some 2) =
       .ok (fun x => if x = effDate 5 3 then some 2 else cacheHit x, 2, 0)) ∧
    (cacheHit (effDate 5 3) = some 7 ∧
     volResolve envC1 cacheHit 5 3 none = .ok (cacheHit, 7, 0)) ∧
    (volResolve envC1 cacheHit 5 3 none = .ok (cacheHit, 7, 0) →
     cacheHit 3 ≠ none → cacheHit 3 = cacheHit 3) :=
  ⟨(volatility_cache_policy envC1 cacheHit 5 3).1 2,
   ⟨by simp [cacheHit, effDate], (volatility_cache_policy envC1 cacheHit 5 3).2.1 7
      (by simp [cacheHit, effDate])⟩,
   fun h hx => (volatility_cache_policy envC1 cacheHit 5 3).2.2 cacheHit 7 0 h 3 hx⟩

/-- C3. When the cache misses and the first implied-volatility solve
raises, the solve is retried exactly once (two solver invocations in all)
against the mid-price at the prior business day obtained through the
calendar advance of -1 day, and the result is cached and used; when the
retry also raises, the error propagates out of the resolution. -/
theorem implied_vol_single_retry (env : EngineEnv) (cache : Date → Option ℚ)
    (date base : Date) (hmiss : cache (effDate date base) = none) :
    (∀ iv : ℚ,
       env.impliedVolSolve (env.tsMidPrice (effDate date base)) = none →
       env.impliedVolSolve
           (env.tsMidPrice (env.advanceMinusOneDay (effDate date base))) = some iv →
       volResolve env cache date base none =
         .ok (fun x => if x = effDate date base then some iv else cache x, iv, 2)) ∧
    (env.impliedVolSolve (env.tsMidPrice (effDate date base)) = none →
     env.impliedVolSolve
         (env.tsMidPrice (env.advanceMinusOneDay (effDate date base))) = none →
     volResolve env cache date base none = .error ()) := by
  constructor
  · intro iv h1 h2
    simp [volResolve, hmiss, h1, h2]
  · intro h1 h2
    simp [volResolve, hmiss, h1, h2]

/-- An environment whose solver fails on the mid-price of date 5 (which is
1) and converges on the mid-price 2 of every other date. -/
def envRetry : EngineEnv :=
  ⟨fun x => if x = 5 then 1 else 2, fun d => d - 1,
   fun q => if q = 2 then some 3 else none⟩

/-- The everywhere-empty volatility cache. -/
def cacheEmpty : Date → Option ℚ := fun _ => none

/-- C3, witness: at date 5 the solve against mid-price 1 fails, the retry
against the prior-business-day mid-price 2 converges to 3, and the
resolution returns it after exactly two solver invocations. -/
theorem implied_vol_single_retry_witness :
    cacheEmpty (effDate 5 5) = none ∧
    envRetry.impliedVolSolve (envRetry.tsMidPrice (effDate 5 5)) = none ∧
    envRetry.impliedVolSolve
        (envRetry.tsMidPrice (envRetry.advanceMinusOneDay (effDate 5 5))) = some 3 ∧
    volResolve envRetry cacheEmpty 5 5 none =
      .ok (fun x => if x = effDate 5 5 then some 3 else cacheEmpty x, 3, 2) :=
  ⟨rfl, by norm_num [envRetry, effDate],
   by norm_num [envRetry, effDate],
   (implied_vol_single_retry envRetry cacheEmpty 5 5 rfl).1 3
     (by norm_num [envRetry, effDate]) (by norm_num [envRetry, effDate])⟩

/-- C4. When the requested date lies strictly beyond base_date, the
volatility-cache key is base_date itself, and the whole volatility
resolution (lookup, solving, caching) behaves exactly as a call at
base_date: all future dates share the volatility entry of base_date. -/
theorem future_date_clamps_vol_date (env : EngineEnv) (cache : Date → Option ℚ)
    (date base : Date) (volatility : Option ℚ) (h : base < date) :
    effDate date base = base ∧
    volResolve env cache date base volatility =
      volResolve env cache base base volatility := by
  have he : effDate date base = base := by simp [effDate, h]
  have he2 : effDate base base = base := by simp [effDate]
  refine ⟨he, ?_⟩
  simp only [volResolve, he, he2]

/-- C4, witness at date 5 strictly beyond base_date 3. -/
theorem future_date_clamps_vol_date_witness :
    (3 : Date) < 5 ∧ effDate 5 3 = 3 ∧
    volResolve envC1 cacheEmpty 5 3 none = volResolve envC1 cacheEmpty 3 3 none :=
  ⟨by decide, future_date_clamps_vol_date envC1 cacheEmpty 5 3 none (by decide)⟩

/-- A state whose stored exercise-type string is the mixed-case American
spelling and whose volatility cache holds 2 everywhere. -/
def stAm : OptionState := ⟨"American", fun _ => some 2⟩

/-- C5, counterexample. With the stored exercise-type string written
American (mixed case), the contract built by ql_option is an
American-exercise contract, yet on the live date 5 both vega and rho skip
the not-applicable branch, whose comparison is against the exact uppercase
string, and return the value 0 coming from the engine failure instead of
the sentinel. -/
theorem vega_american_counterexample :
    (qlOption instC1 stAm 5 none).2 = .ok ⟨"CALL", 100, .american 5 10⟩ ∧
    (vega envC1 instC1 stAm none 5 8 none none).2 = .ok (.val 0) ∧
    (rho envC1 instC1 stAm none 5 8 none none).2 = .ok (.val 0) ∧
    GreekResult.val 0 ≠ .na := by
  refine ⟨rfl, rfl, rfl, by decide⟩

/-- C5, amended. On live dates, once the engine setup succeeds, vega and
rho return the not-applicable sentinel exactly when the stored
exercise-type string (after any override uppercasing) is the exact string
AMERICAN; in every other case, the European one included, they return the
engine value, or 0 when the engine raises while retrieving it, and the
failure never propagates. -/
theorem vega_rho_live_behaviour (env : EngineEnv) (inst : OptionInstr)
    (st st1 : OptionState) (eV eR : Option ℚ) (date base : Date)
    (exerciseOvrd : Option String) (volatility : Option ℚ)
    (r : VanillaOption × ℚ × ℕ)
    (hlive : date < inst.maturity)
    (hok : optionEngine env inst st date base exerciseOvrd volatility = (st1, .ok r)) :
    vega env inst st eV date base exerciseOvrd volatility =
      (st1, .ok (if st1.exerciseType = "AMERICAN" then .na
                 else match eV with | some v => .val v | none => .val 0)) ∧
    rho env inst st eR date base exerciseOvrd volatility =
      (st1, .ok (if st1.exerciseType = "AMERICAN" then .na
                 else match eR with | some v => .val v | none => .val 0)) := by
  have hd : ¬ date ≥ inst.maturity := not_le.mpr hlive
  constructor
  · simp only [vega, if_neg hd, hok]
    by_cases hA : st1.exerciseType = "AMERICAN"
    · simp [hA]
    · cases eV <;> simp [hA]
  · simp only [rho, if_neg hd, hok]
    by_cases hA : st1.exerciseType = "AMERICAN"
    · simp [hA]
    · cases eR <;> simp [hA]

/-- A state with the exact uppercase AMERICAN exercise type and the
volatility cache holding 2 everywhere. -/
def stAM : OptionState := ⟨"AMERICAN", fun _ => some 2⟩

/-- C5, witness for the amended theorem: at the live date 5 the AMERICAN
state yields the not-applicable sentinel for both vega and rho. -/
theorem vega_rho_live_behaviour_witness :
    (5 : Date) < instC1.maturity ∧
    vega envC1 instC1 stAM none 5 8 none none =
      (stAM, .ok (if stAM.exerciseType = "AMERICAN" then .na
                  else match (none : Option ℚ) with | some v => .val v | none => .val 0)) ∧
    rho envC1 instC1 stAM none 5 8 none none =
      (stAM, .ok (if stAM.exerciseType = "AMERICAN" then .na
                  else match (none : Option ℚ) with | some v => .val v | none => .val 0)) :=
  ⟨by norm_num [instC1],
   (vega_rho_live_behaviour envC1 instC1 stAM stAM none none 5 8 none none
      (⟨"CALL", 100, .american 5 10⟩, 2, 0) (by norm_num [instC1]) rfl).1,
   (vega_rho_live_behaviour envC1 instC1 stAM stAM none none 5 8 none none
      (⟨"CALL", 100, .american 5 10⟩, 2, 0) (by norm_num [instC1]) rfl).2⟩

/-- C6. At every date at or past maturity: delta is 1 when the intrinsic
value at maturity is strictly positive and 0 otherwise, and gamma, theta,
vega and rho are all 0, the state untouched. -/
theorem expired_greeks_values (env : EngineEnv) (inst : OptionInstr)
    (st : OptionState) (spotPrice : Date → ℚ) (eD eG eT : ℚ) (eV eR : Option ℚ)
    (date base : Date) (exerciseOvrd : Option String) (volatility : Option ℚ)
    (h : date ≥ inst.maturity) :
    delta env inst st spotPrice eD date base exerciseOvrd volatility =
      (st, .ok (if intrinsic inst spotPrice inst.maturity > 0 then 1 else 0)) ∧
    gamma env inst st eG date base exerciseOvrd volatility = (st, .ok 0) ∧
    theta env inst st eT date base exerciseOvrd volatility = (st, .ok 0) ∧
    vega env inst st eV date base exerciseOvrd volatility = (st, .ok (.val 0)) ∧
    rho env inst st eR date base exerciseOvrd volatility = (st, .ok (.val 0)) := by
  refine ⟨?_, ?_, ?_, ?_, ?_⟩ <;> simp [delta, gamma, theta, vega, rho, h]

/-- C6, witness at date 20 past the maturity 10, where the intrinsic value
at maturity is the positive payoff 10 and delta is 1. -/
theorem expired_greeks_values_witness :
    (20 : Date) ≥ instC1.maturity ∧
    delta envC1 instC1 stC1 spotC1 7 20 20 none none =
      (stC1, .ok (if intrinsic instC1 spotC1 instC1.maturity > 0 then 1 else 0)) ∧
    gamma envC1 instC1 stC1 7 20 20 none none = (stC1, .ok 0) ∧
    theta envC1 instC1 stC1 7 20 20 none none = (stC1, .ok 0) ∧
    vega envC1 instC1 stC1 none 20 20 none none = (stC1, .ok (.val 0)) ∧
    rho envC1 instC1 stC1 none 20 20 none none = (stC1, .ok (.val 0)) :=
  ⟨by norm_num [instC1],
   expired_greeks_values envC1 instC1 stC1 spotC1 7 7 7 none none 20 20 none none
     (by norm_num [instC1])⟩

/-- C7. option_exercise_type accepts exactly the exercise-type strings
whose uppercase is AMERICAN or EUROPEAN, building the matching QuantLib
exercise object for every date and maturity, and raises ValueError for any
other string; through ql_option the error surfaces at contract-build
time. -/
theorem exercise_type_resolution (s : String) (date maturity : Date)
    (inst : OptionInstr) (st : OptionState) :
    (option_exercise_type s date maturity =
       if pyUpper s = "AMERICAN" then .ok (.american date maturity)
       else if pyUpper s = "EUROPEAN" then .ok (.european maturity)
       else .error ()) ∧
    (pyUpper s ≠ "AMERICAN" → pyUpper s ≠ "EUROPEAN" →
       (qlOption inst { st with exerciseType := s } date none).2 = .error ()) := by
  constructor
  · rfl
  · intro h1 h2
    simp [qlOption, option_exercise_type, h1, h2]

/-- C7, witness: the unsupported string Bermudan is rejected at
contract-build time, while the two supported spellings build the exercise
objects. -/
theorem exercise_type_resolution_witness :
    (option_exercise_type "Bermudan" 5 10 =
       if pyUpper "Bermudan" = "AMERICAN" then .ok (.american 5 10)
       else if pyUpper "Bermudan" = "EUROPEAN" then .ok (.european 10)
       else .error ()) ∧
    (qlOption instC1 { stC1 with exerciseType := "Bermudan" } 5 none).2 = .error () ∧
    option_exercise_type "american" 5 10 = .ok (.american 5 10) ∧
    option_exercise_type "European" 5 10 = .ok (.european 10) :=
  ⟨(exercise_type_resolution "Bermudan" 5 10 instC1 stC1).1,
   (exercise_type_resolution "Bermudan" 5 10 instC1 stC1).2 (by decide) (by decide),
   rfl, rfl⟩

/-- A degenerate currency instrument whose quote and base currencies are
both USD. -/
def instUU : CurrencyInstr := ⟨"USD", "USD"⟩

/-- A currency instrument quoted in USD against the base currency BRL. -/
def instUB : CurrencyInstr := ⟨"USD", "BRL"⟩

/-- A constant quote series at 2. -/
def quotesTwo : Date → ℚ := fun _ => 2

/-- C8, counterexample. On an instrument whose quote currency equals its
base currency, value returns 1 for the three-letter code EUR although EUR
matches neither currency (the claim demands the NaN sentinel), and returns
1 for the matching code USD although the quote value is 2 (the claim
demands the quote value). -/
theorem currency_value_counterexample :
    (pyUpper "EUR").length = 3 ∧
    pyUpper "EUR" ≠ instUU.currency ∧ pyUpper "EUR" ≠ instUU.baseCurrency ∧
    Currency.value instUU quotesTwo 0 (some "EUR") = some 1 ∧
    (some (1 : ℚ) ≠ none) ∧
    Currency.value instUU quotesTwo 0 (some "USD") = some 1 ∧
    quotesTwo 0 = 2 ∧ some (1 : ℚ) ≠ some 2 := by
  refine ⟨by decide, by decide, by decide, rfl, by simp, rfl, rfl, by norm_num⟩

/-- C8, amended. Currency.value returns the NaN sentinel for codes whose
length is not three; on instruments whose quote currency equals the base
currency it returns 1 for every three-letter code, whatever it matches;
otherwise it returns the quote value when the uppercased code matches the
quote currency, the reciprocal when it matches the base currency, and the
NaN sentinel when it matches neither. It never raises. -/
theorem currency_value_behaviour (inst : CurrencyInstr) (quotes : Date → ℚ)
    (date : Date) (s : String) :
    ((pyUpper s).length ≠ 3 → Currency.value inst quotes date (some s) = none) ∧
    ((pyUpper s).length = 3 → inst.currency = inst.baseCurrency →
       Currency.value inst quotes date (some s) = some 1) ∧
    ((pyUpper s).length = 3 → inst.currency ≠ inst.baseCurrency →
       pyUpper s = inst.currency →
       Currency.value inst quotes date (some s) = some (quotes date)) ∧
    ((pyUpper s).length = 3 → inst.currency ≠ inst.baseCurrency →
       pyUpper s ≠ inst.currency → pyUpper s = inst.baseCurrency →
       Currency.value inst quotes date (some s) = some (1 / quotes date)) ∧
    ((pyUpper s).length = 3 → inst.currency ≠ inst.baseCurrency →
       pyUpper s ≠ inst.currency → pyUpper s ≠ inst.baseCurrency →
       Currency.value inst quotes date (some s) = none) := by
  refine ⟨?_, ?_, ?_, ?_, ?_⟩ <;> intros <;> simp_all [Currency.value]

/-- C8, witness exercising every branch of the amended theorem: a
two-letter code, the degenerate equal-currencies instrument, a
quote-currency match, a base-currency match and a three-letter
mismatch. -/
theorem currency_value_behaviour_witness :
    Currency.value instUB quotesTwo 0 (some "US") = none ∧
    Currency.value instUU quotesTwo 0 (some "EUR") = some 1 ∧
    Currency.value instUB quotesTwo 0 (some "usd") = some (quotesTwo 0) ∧
    Currency.value instUB quotesTwo 0 (some "brl") = some (1 / quotesTwo 0) ∧
    Currency.value instUB quotesTwo 0 (some "EUR") = none :=
  ⟨(currency_value_behaviour instUB quotesTwo 0 "US").1 (by decide),
   (currency_value_behaviour instUU quotesTwo 0 "EUR").2.1 (by decide) (by decide),
   (currency_value_behaviour instUB quotesTwo 0 "usd").2.2.1 (by decide) (by decide)
     (by decide),
   (currency_value_behaviour instUB quotesTwo 0 "brl").2.2.2.1 (by decide) (by decide)
     (by decide) (by decide),
   (currency_value_behaviour instUB quotesTwo 0 "EUR").2.2.2.2 (by decide) (by decide)
     (by decide) (by decide)⟩

/-- Helper: ql_option with an override always leaves the state with the
uppercased override as stored exercise type, whether or not the build
raises. -/
theorem qlOption_fst_override (inst : OptionInstr) (st : OptionState)
    (date : Date) (o : String) :
    (qlOption inst st date (some o)).1 = { st with exerciseType := pyUpper o } := by
  rcases h : option_exercise_type (pyUpper o) date inst.maturity with e | ex <;>
    simp [qlOption, h]

/-- C9. Passing a non-None exercise override to ql_option permanently
mutates the stored instrument state: the stored exercise_type becomes the
uppercased override, every later override-free call behaves as if the
instrument had been built with that type, and the mutation equally happens
through option_engine (hence through the valuation methods). -/
theorem exercise_ovrd_mutates_state (inst : OptionInstr) (st : OptionState)
    (date : Date) (o : String) :
    (qlOption inst st date (some o)).1 = { st with exerciseType := pyUpper o } ∧
    (∀ date2 : Date,
       qlOption inst (qlOption inst st date (some o)).1 date2 none =
         qlOption inst { st with exerciseType := pyUpper o } date2 none) ∧
    (∀ (env : EngineEnv) (base : Date) (volatility : Option ℚ),
       (optionEngine env inst st date base (some o) volatility).1.exerciseType =
         pyUpper o) := by
  refine ⟨qlOption_fst_override inst st date o, ?_, ?_⟩
  · intro date2
    rw [qlOption_fst_override]
  · intro env base volatility
    have h1 := qlOption_fst_override inst st date o
    rcases hq : qlOption inst st date (some o) with ⟨st1, r⟩
    rw [hq] at h1
    have h2 : st1 = { st with exerciseType := pyUpper o } := h1
    simp only [optionEngine, hq]
    rcases r with e | opt
    · simp [h2]
    · simp [h2]
      rcases hvv : volResolve env st.impliedVolatility date base volatility with
        e2 | ⟨cache1, vol1, n⟩ <;> simp [hvv]

/-- An OIS environment that is never expired, always quotes the rate 5 and
always finds a tenor. -/
def envOIS : OISEnv := ⟨fun _ => false, fun _ => some 5, fun _ => .ok ()⟩

/-- An OIS environment that is always expired. -/
def envOISExp : OISEnv := ⟨fun _ => true, fun _ => some 5, fun _ => .ok ()⟩

/-- A fresh OIS state: both quotes at 0, no helper built yet. -/
def stOIS : OISState := ⟨0, 0, none⟩

/-- C10, counterexample. On a fresh state, calling rate_helper with spread
1 sets the spread quote to 1 but returns a helper whose overnight spread is
0, the value the spread quote had when the helper was constructed, because
set_rate_helper passes final_spread.value() by value rather than a quote
handle; the claim says the returned helper has its spread quote set to the
given spread. -/
theorem ois_spread_counterexample :
    (rate_helper envOIS stOIS 0 1).2 = some ⟨0⟩ ∧
    (rate_helper envOIS stOIS 0 1).1.finalSpread = 1 ∧ (0 : ℚ) ≠ 1 := by
  refine ⟨rfl, rfl, by norm_num⟩

/-- C10, amended. rate_helper returns None exactly when the instrument is
expired, the quote is NaN, or the tenor raises ValueError, and never
raises; otherwise it sets the instrument rate quote (seen by the helper
through a live handle) to the retrieved value and the instrument spread
quote to the given spread, and returns the lazily constructed, reused
helper, whose frozen overnight spread is the value the spread quote had at
construction time, so the spread argument does not alter the returned
helper. -/
theorem ois_rate_helper_behaviour (env : OISEnv) (st : OISState) (date : Date)
    (spread : ℚ) :
    ((rate_helper env st date spread).2 = none ↔
       env.isExpired date = true ∨ env.getValues date = none ∨
         env.tenor date = .error ()) ∧
    (∀ r : ℚ, env.isExpired date = false → env.getValues date = some r →
       env.tenor date = .ok () →
       (rate_helper env st date spread).1.finalRate = r ∧
       (rate_helper env st date spread).1.finalSpread = spread ∧
       (rate_helper env st date spread).2 =
         some (match st.rateHelper with
               | none => ⟨st.finalSpread⟩
               | some h => h)) := by
  constructor
  · cases hx : env.isExpired date
    · rcases hg : env.getValues date with _ | r
      · simp [rate_helper, hx, hg]
      · rcases ht : env.tenor date with u | u
        · cases u
          simp [rate_helper, hx, hg, ht]
        · cases u
          rcases hr : st.rateHelper with _ | h <;>
            simp [rate_helper, hx, hg, ht, set_rate_helper, hr]
    · simp [rate_helper, hx]
  · intro r hx hg ht
    rcases hr : st.rateHelper with _ | h <;>
      simp [rate_helper, hx, hg, ht, set_rate_helper, hr]

/-- C10, witness: the success path on a fresh state at rate 5 and spread 1,
and the None result on an expired environment. -/
theorem ois_rate_helper_behaviour_witness :
    (rate_helper envOISExp stOIS 0 1).2 = none ∧
    envOIS.isExpired 0 = false ∧ envOIS.getValues 0 = some 5 ∧
    envOIS.tenor 0 = .ok () ∧
    ((rate_helper envOIS stOIS 0 1).1.finalRate = 5 ∧
     (rate_helper envOIS stOIS 0 1).1.finalSpread = 1 ∧
     (rate_helper envOIS stOIS 0 1).2 =
       some (match stOIS.rateHelper with
             | none => ⟨stOIS.finalSpread⟩
             | some h => h)) :=
  ⟨(ois_rate_helper_behaviour envOISExp stOIS 0 1).1.mpr (Or.inl rfl),
   rfl, rfl, rfl,
   (ois_rate_helper_behaviour envOIS stOIS 0 1).2 5 rfl rfl rfl⟩

end Tsfin
